import Mathlib

/-!
Verification of the maechaem_DB tree-survey application core
(`src/App.tsx`, `src/services/sheetsService.ts`, `src/types.ts`).

The TypeScript source is shallowly embedded: every definition below mirrors
one expression or function of the source.  JavaScript strings become `String`,
JavaScript arrays become `List`, nullable fields become `Option`, and the
JavaScript number expressions that the statistics view evaluates are modelled
with exact rationals plus an explicit `JsNum` type for the `NaN`/`Infinity`
values that division by zero produces.  `Math.round` on the non-negative
finite values occurring here is `⌊x + 1/2⌋` (round half up), which is exact
for the rationals involved.
-/

namespace MaechaemDB

/-! ### Data model (`src/types.ts`)

Only the fields that the embedded operations read are carried.
`status` is `'alive' | 'dead' | null` on the wire, embedded as
`Option String`. -/

/-- One growth-log observation (`TreeRecord` in `types.ts`), restricted to the
fields read by the filter, statistics and map-join code. -/
structure TreeRecord where
  tree_code : String
  plot_code : String
  species_name : String
  status : Option String
deriving DecidableEq

/-- One spatial placement (`CoordRecord` in `types.ts`), restricted to the
field read by the map join and the coverage statistic. -/
structure CoordRecord where
  tree_code : String
deriving DecidableEq

/-! ### String helpers with JavaScript semantics -/

/-- JavaScript `String.prototype.padStart(n, c)`: pad on the left up to
length `n`; a string already at least that long is returned unchanged. -/
def padStart (s : String) (n : Nat) (c : Char) : String :=
  String.mk (List.replicate (n - s.length) c ++ s.data)

/-- Character-list prefix test (Boolean, executable). -/
def isPrefixCh : List Char → List Char → Bool
  | [], _ => true
  | _ :: _, [] => false
  | a :: as, b :: bs => a == b && isPrefixCh as bs

/-- Character-list contiguous-substring test (Boolean, executable). -/
def hasSubCh (needle : List Char) : List Char → Bool
  | [] => isPrefixCh needle []
  | b :: bs => isPrefixCh needle (b :: bs) || hasSubCh needle bs

/-- JavaScript `hay.includes(needle)` (contiguous substring;
`"".includes("")` is `true`). -/
def jsIncludes (hay needle : String) : Bool :=
  hasSubCh needle.data hay.data

/-- JavaScript `s.toLowerCase()`, character by character. -/
def lowerStr (s : String) : String :=
  String.mk (s.data.map Char.toLower)

/-! ### Identity deriver (`treeCodePreview`, `App.tsx` lines 111–114)

```
const treeCodePreview = useMemo(() => {
  if (!plotCode || !speciesCode || !treeNumber) return '—';
  return `${plotCode}${speciesCode}${treeNumber.toString().padStart(3, '0')}`;
}, [plotCode, speciesCode, treeNumber]);
```
The three inputs are form-state strings; `!s` is true exactly on the empty
string.  The sentinel is the em-dash placeholder (the source literal, shown
here with its intended encoding). -/

/-- The incomplete-state placeholder returned for missing inputs. -/
def sentinel : String := "—"

/-- `treeCodePreview` as a function of the three form inputs. -/
def deriveTreeCode (plotCode speciesCode treeNumber : String) : String :=
  if plotCode = "" || speciesCode = "" || treeNumber = "" then sentinel
  else plotCode ++ speciesCode ++ padStart treeNumber 3 '0'

/-- `deriveTreeCode` applied to a numeric tree number, as entered through the
numeric form field: the number reaches the code as its decimal numeral
(`treeNumber.toString()`). -/
def deriveTreeCodeNat (plotCode speciesCode : String) (treeNumber : Nat) : String :=
  deriveTreeCode plotCode speciesCode (Nat.repr treeNumber)

/-! ### Decimal numerals

`Nat.repr` is core Lean's fuel-based decimal printer.  `decDigits` is a
fuel-free restatement used to reason about it; `decVal` evaluates a digit
string back to a number. -/

/-- The decimal digit characters of `n`, most significant first. -/
def decDigits (n : Nat) : List Char :=
  if h : n < 10 then [Nat.digitChar n]
  else
    have : n / 10 < n := Nat.div_lt_self (by omega) (by omega)
    decDigits (n / 10) ++ [Nat.digitChar (n % 10)]

/-- Numeric value of a digit character. -/
def digitVal (c : Char) : Nat := c.toNat - 48

/-- Value of a digit string, most significant first. -/
def decVal (l : List Char) : Nat :=
  l.foldl (fun a c => a * 10 + digitVal c) 0

/-! ### Record store filtering (`filteredRecords`, `App.tsx` lines 181–190)

```
records.filter(r => {
  const matchesSearch = !searchTerm ||
    r.tree_code?.toLowerCase().includes(searchTerm.toLowerCase()) ||
    r.species_name?.toLowerCase().includes(searchTerm.toLowerCase());
  const matchesPlot = !plotFilter || r.plot_code === plotFilter;
  const matchesStatus = !statusFilter || r.status === statusFilter;
  return matchesSearch && matchesPlot && matchesStatus;
});
```
`r.status === statusFilter` compares a `string | null` with a string, so a
`null` status matches no non-empty status filter. -/

/-- `filteredRecords` as a function of the record list and the three
filter values. -/
def filterGrowth (records : List TreeRecord)
    (searchTerm plotFilter statusFilter : String) : List TreeRecord :=
  records.filter fun r =>
    let matchesSearch := searchTerm == "" ||
      jsIncludes (lowerStr r.tree_code) (lowerStr searchTerm) ||
      jsIncludes (lowerStr r.species_name) (lowerStr searchTerm)
    let matchesPlot := plotFilter == "" || r.plot_code == plotFilter
    let matchesStatus := statusFilter == "" ||
      (match r.status with
       | some s => s == statusFilter
       | none => false)
    matchesSearch && matchesPlot && matchesStatus

/-- The matching condition as the specification states it: `searchTerm`
empty or a case-insensitive substring of the tree code or the species name,
AND plot filter empty or equal, AND status filter empty or equal. -/
def SpecMatches (searchTerm plotFilter statusFilter : String)
    (r : TreeRecord) : Prop :=
  (searchTerm = "" ∨
      jsIncludes (lowerStr r.tree_code) (lowerStr searchTerm) = true ∨
      jsIncludes (lowerStr r.species_name) (lowerStr searchTerm) = true)
  ∧ (plotFilter = "" ∨ r.plot_code = plotFilter)
  ∧ (statusFilter = "" ∨ r.status = some statusFilter)

/-! ### Aggregator (`stats`, `App.tsx` lines 193–225) -/

/-- `records.filter(r => r.status === 'alive').length`. -/
def aliveCount (records : List TreeRecord) : Nat :=
  (records.filter fun r => r.status == some "alive").length

/-- `records.filter(r => r.status === 'dead').length`. -/
def deadCount (records : List TreeRecord) : Nat :=
  (records.filter fun r => r.status == some "dead").length

/-- `Math.round` on a non-negative finite JavaScript number: round half
towards positive infinity. -/
def jsRound (q : ℚ) : ℤ := ⌊q + 1 / 2⌋

/-- `total ? Math.round((k / total) * 100) : 0`. -/
def pctPart (k total : Nat) : ℤ :=
  if total = 0 then 0 else jsRound ((k : ℚ) / (total : ℚ) * 100)

/-- `stats.alivePct`. -/
def alivePct (records : List TreeRecord) : ℤ :=
  pctPart (aliveCount records) records.length

/-- `stats.deadPct`. -/
def deadPct (records : List TreeRecord) : ℤ :=
  pctPart (deadCount records) records.length

/-- One step of the `speciesCounts[name] = (speciesCounts[name] || 0) + 1`
accumulation: JavaScript objects with string keys enumerate in insertion
order, so the counts form an association list ordered by first encounter. -/
def bump : List (String × Nat) → String → List (String × Nat)
  | [], k => [(k, 1)]
  | (k', v) :: rest, k =>
    if k' = k then (k', v + 1) :: rest else (k', v) :: bump rest k

/-- The `(name, count)` pairs produced by the `speciesCounts` accumulation
and the `Object.keys` traversal, in first-encounter order. -/
def speciesTally (records : List TreeRecord) : List (String × Nat) :=
  records.foldl (fun m r => bump m r.species_name) []

/-- The sort relation of `(a, b) => b.value - a.value`: descending by
count. -/
def descByCount (a b : String × Nat) : Prop := b.2 ≤ a.2

instance : DecidableRel descByCount := fun a b => Nat.decLe b.2 a.2

instance : IsTotal (String × Nat) descByCount :=
  ⟨fun a b => Nat.le_total b.2 a.2⟩

instance : IsTrans (String × Nat) descByCount :=
  ⟨fun _ _ _ h1 h2 => Nat.le_trans h2 h1⟩

/-- `Array.prototype.sort` is stable, and a stable sort of a list under a
total preorder is unique, so the JavaScript
`speciesData.sort((a,b) => b.value - a.value)` is embedded as a stable
insertion sort under `descByCount`. -/
def sortDescByCount (l : List (String × Nat)) : List (String × Nat) :=
  List.insertionSort descByCount l

/-- `stats.speciesData`: tally by species name, sort descending by count,
`slice(0, 10)`. -/
def speciesBreakdown (records : List TreeRecord) : List (String × Nat) :=
  (sortDescByCount (speciesTally records)).take 10

/-- First-encounter order of the species names of a record list (the order
the specification's tie-breaking clause refers to). -/
def encounterOrder (records : List TreeRecord) : List String :=
  records.foldl
    (fun acc r => if r.species_name ∈ acc then acc else acc ++ [r.species_name]) []

/-! ### JavaScript numbers for the coverage statistic
(`App.tsx` line 751)

```
{Math.round((coordRecords.length/stats.total)*100 || 0)}% ของทั้งหมด
```
Division of non-negative numbers by zero yields `Infinity` (or `NaN` for
`0/0`); `x || 0` replaces the falsy values `NaN` and `0` by `0` but keeps
`Infinity`; `Math.round` fixes `NaN` and `Infinity`. -/

/-- A JavaScript number as produced by the coverage expression: a finite
rational, positive infinity, or `NaN`. -/
inductive JsNum where
  | num : ℚ → JsNum
  | posInf : JsNum
  | nan : JsNum
deriving DecidableEq

/-- JavaScript division of two non-negative integers. -/
def jsDivNat (a b : Nat) : JsNum :=
  if b = 0 then (if a = 0 then .nan else .posInf) else .num ((a : ℚ) / (b : ℚ))

/-- Multiplication by 100 (finite ⋅ 100; `Infinity` and `NaN` absorb). -/
def jsMul100 : JsNum → JsNum
  | .num q => .num (q * 100)
  | .posInf => .posInf
  | .nan => .nan

/-- JavaScript `x || 0` on a number: `NaN` and `0` are falsy. -/
def jsOrZero : JsNum → JsNum
  | .num q => if q = 0 then .num 0 else .num q
  | .posInf => .posInf
  | .nan => .num 0

/-- JavaScript `Math.round` (non-negative finite case rounds half up;
`Math.round(Infinity) = Infinity`, `Math.round(NaN) = NaN`). -/
def jsMathRound : JsNum → JsNum
  | .num q => .num ((⌊q + 1 / 2⌋ : ℤ) : ℚ)
  | .posInf => .posInf
  | .nan => .nan

/-- The displayed coverage percentage
`Math.round((spatialCount/total)*100 || 0)`. -/
def coveragePctDisplay (spatialCount total : Nat) : JsNum :=
  jsMathRound (jsOrZero (jsMul100 (jsDivNat spatialCount total)))

/-- The coverage statistic over the two record collections. -/
def coordinateCoveragePct (records : List TreeRecord)
    (coordRecords : List CoordRecord) : JsNum :=
  coveragePctDisplay coordRecords.length records.length

/-! ### Join / map layer (`App.tsx` lines 679–683)

```
const growthRec = records.find(g => g.tree_code === r.tree_code);
const isAlive = growthRec?.status === 'alive';
const isDead = growthRec?.status === 'dead';
const color = isAlive ? '#22c55e' : isDead ? '#ef4444' : '#9ca3af';
```
-/

/-- `records.find(g => g.tree_code === r.tree_code)`. -/
def resolveGrowthFor (records : List TreeRecord) (c : CoordRecord) :
    Option TreeRecord :=
  records.find? fun g => g.tree_code == c.tree_code

/-- The marker colour chosen for a spatial record. -/
def markerColor (records : List TreeRecord) (c : CoordRecord) : String :=
  let growthRec := resolveGrowthFor records c
  let isAlive := growthRec.elim false fun g => g.status == some "alive"
  let isDead := growthRec.elim false fun g => g.status == some "dead"
  if isAlive then "#22c55e" else if isDead then "#ef4444" else "#9ca3af"

/-! ### Data reload (`fetchData`, `App.tsx` lines 87–104)

```
try {
  const growthRes = await apiGet('growth_logs');
  if (growthRes.success) setRecords(growthRes.data);
  const coordRes = await apiGet('trees_profile');
  if (coordRes.success) setCoordRecords(coordRes.data);
  showToast('Data synced with cloud', 'success');
} catch (err) { showToast('Sync failed: ...', 'error'); }
finally { setIsLoading(false); }
```
`apiGet` throws on a non-2xx response or a network error, so each fetch
either throws or yields a `{success, data}` body.  A throw on the first
fetch skips the second. -/

/-- Outcome of one `apiGet` call: a response body with its `success` flag
and data, or a thrown error. -/
inductive FetchResult (α : Type) where
  | ok : Bool → List α → FetchResult α
  | err : FetchResult α
deriving DecidableEq

/-- The application state that `fetchData` touches. -/
structure AppState where
  records : List TreeRecord
  coordRecords : List CoordRecord
  isLoading : Bool
  toastMsg : Option (String × String)
deriving DecidableEq

/-- `fetchData` as a state transition, parameterised by the outcomes of the
two fetches (the second outcome is only consulted when the first one did
not throw). -/
def fetchData (s : AppState) (growthRes : FetchResult TreeRecord)
    (coordRes : FetchResult CoordRecord) : AppState :=
  match growthRes with
  | .err => { s with isLoading := false, toastMsg := some ("Sync failed", "error") }
  | .ok gOk gData =>
    let s1 := if gOk then { s with records := gData } else s
    match coordRes with
    | .err => { s1 with isLoading := false, toastMsg := some ("Sync failed", "error") }
    | .ok cOk cData =>
      let s2 := if cOk then { s1 with coordRecords := cData } else s1
      { s2 with isLoading := false,
                toastMsg := some ("Data synced with cloud", "success") }

/-! ### Form state (`clearForm` lines 126–136, `handleSubmit` lines 138–178) -/

/-- The form and filter state fields of the component. -/
structure FormState where
  plotCode : String
  treeNumber : String
  speciesCode : String
  rowMain : String
  rowSub : String
  dbhCm : String
  heightM : String
  status : Option String
  note : String
  recorder : String
  surveyDate : String
  searchTerm : String
  plotFilter : String
  statusFilter : String
deriving DecidableEq

/-- `clearForm`: resets the nine entry fields, touches nothing else. -/
def clearForm (f : FormState) : FormState :=
  { f with plotCode := "", treeNumber := "", speciesCode := "",
           rowMain := "", rowSub := "", dbhCm := "", heightM := "",
           status := none, note := "" }

/-- `handleSubmit` restricted to its effect on the form state: validation
rejects a missing required field; on a successful post the form is cleared;
otherwise it is untouched. -/
def handleSubmit (f : FormState) (postOk : Bool) : FormState :=
  if f.plotCode = "" || f.speciesCode = "" || f.treeNumber = "" ||
     f.rowMain = "" || f.rowSub = "" || f.recorder = "" then f
  else if postOk then clearForm f else f

/-- A concrete eight-record growth collection with one alive and seven dead
trees, used to evaluate the statistics at an explicit input. -/
def cexRecordsC2 : List TreeRecord :=
  [⟨"PLOT1A02001", "PLOT1", "Teak", some "alive"⟩,
   ⟨"PLOT1A02002", "PLOT1", "Teak", some "dead"⟩,
   ⟨"PLOT1A02003", "PLOT1", "Teak", some "dead"⟩,
   ⟨"PLOT1A02004", "PLOT1", "Teak", some "dead"⟩,
   ⟨"PLOT1A02005", "PLOT1", "Teak", some "dead"⟩,
   ⟨"PLOT1A02006", "PLOT1", "Teak", some "dead"⟩,
   ⟨"PLOT1A02007", "PLOT1", "Teak", some "dead"⟩,
   ⟨"PLOT1A02008", "PLOT1", "Teak", some "dead"⟩]

/-! ## Lemmas about decimal numerals -/

theorem decDigits_ne_nil (n : Nat) : decDigits n ≠ [] := by
  rw [decDigits]
  split
  · simp
  · simp

theorem digitVal_digitChar : ∀ d : Nat, d < 10 → digitVal (Nat.digitChar d) = d := by
  decide

theorem decVal_append_singleton (l : List Char) (c : Char) :
    decVal (l ++ [c]) = decVal l * 10 + digitVal c := by
  simp [decVal, List.foldl_append]

theorem decVal_decDigits (n : Nat) : decVal (decDigits n) = n := by
  induction n using Nat.strong_induction_on with
  | _ n ih =>
    rw [decDigits]
    split
    · next h =>
      simp [decVal, digitVal_digitChar n h]
    · next h =>
      have hlt : n / 10 < n := Nat.div_lt_self (by omega) (by omega)
      rw [decVal_append_singleton, ih (n / 10) hlt,
        digitVal_digitChar (n % 10) (Nat.mod_lt n (by omega))]
      omega

theorem decVal_replicate_zero (z : Nat) (l : List Char) :
    decVal (List.replicate z '0' ++ l) = decVal l := by
  induction z with
  | zero => simp
  | succ z ih =>
    have : List.replicate (z + 1) '0' ++ l = '0' :: (List.replicate z '0' ++ l) := by
      simp [List.replicate_succ]
    rw [this]
    simpa [decVal, digitVal] using ih

theorem toDigitsCore_eq (f : Nat) :
    ∀ n acc, n < f → Nat.toDigitsCore 10 f n acc = decDigits n ++ acc := by
  induction f with
  | zero => intro n acc h; omega
  | succ f ih =>
    intro n acc h
    rw [Nat.toDigitsCore]
    by_cases h10 : n < 10
    · have hdiv : n / 10 = 0 := Nat.div_eq_of_lt h10
      have hmod : n % 10 = n := Nat.mod_eq_of_lt h10
      simp only [hdiv, if_pos rfl, hmod]
      rw [decDigits]
      simp [h10]
    · have hdiv : n / 10 ≠ 0 := by
        intro h0
        have : n < 10 := by omega
        exact h10 this
      have hlt : n / 10 < f := by
        have hn : 0 < n := by omega
        have : n / 10 < n := Nat.div_lt_self hn (by omega)
        omega
      simp only [if_neg hdiv]
      rw [ih (n / 10) _ hlt]
      conv_rhs => rw [decDigits]
      simp [h10]

theorem repr_data (n : Nat) : (Nat.repr n).data = decDigits n := by
  show (Nat.toDigits 10 n).asString.data = decDigits n
  rw [Nat.toDigits, toDigitsCore_eq (n + 1) n [] (Nat.lt_succ_self n)]
  simp [List.asString]

theorem repr_length_eq (n : Nat) : (Nat.repr n).length = (decDigits n).length := by
  show (Nat.repr n).data.length = _
  rw [repr_data]

theorem repr_ne_empty (n : Nat) : Nat.repr n ≠ "" := by
  intro h
  have := congrArg String.data h
  rw [repr_data] at this
  exact decDigits_ne_nil n (by simpa using this)

theorem padded_decDigits_inj (m n : Nat)
    (h : List.replicate (3 - (decDigits m).length) '0' ++ decDigits m =
         List.replicate (3 - (decDigits n).length) '0' ++ decDigits n) : m = n := by
  have := congrArg decVal h
  rwa [decVal_replicate_zero, decVal_replicate_zero, decVal_decDigits,
    decVal_decDigits] at this

theorem padStart_repr_inj (m n : Nat)
    (h : padStart (Nat.repr m) 3 '0' = padStart (Nat.repr n) 3 '0') : m = n := by
  have hd := congrArg String.data h
  simp only [padStart] at hd
  rw [repr_length_eq, repr_length_eq, repr_data, repr_data] at hd
  exact padded_decDigits_inj m n hd

theorem string_eq_of_data {a b : String} (h : a.data = b.data) : a = b :=
  String.ext h

/-! ## Claim theorems -/

/-- C9: `deriveTreeCode` with any missing (empty) input returns the
incomplete-state sentinel placeholder; being a total function of its three
inputs, it never throws. -/
theorem deriveTreeCode_sentinel_on_missing (p s t : String)
    (h : p = "" ∨ s = "" ∨ t = "") : deriveTreeCode p s t = sentinel := by
  rcases h with h | h | h <;> simp [deriveTreeCode, h]

theorem deriveTreeCode_sentinel_on_missing_witness :
    ("" = "" ∨ "A02" = "" ∨ "14" = "") ∧ deriveTreeCode "" "A02" "14" = sentinel :=
  ⟨Or.inl rfl, deriveTreeCode_sentinel_on_missing "" "A02" "14" (Or.inl rfl)⟩

/-- C4: for non-empty `plotCode` and `speciesCode` and `treeNumber ≥ 1`,
`deriveTreeCode` is the concatenation of the plot code, the species code and
the tree number zero-padded to three digits; in particular
`deriveTreeCode("PLOT1","A02",14) = "PLOT1A02014"` and
`deriveTreeCode("PLOT1","A02",7) = "PLOT1A02007"`. -/
theorem deriveTreeCode_concat_spec :
    (∀ (p s : String) (n : Nat), p ≠ "" → s ≠ "" → 1 ≤ n →
        deriveTreeCodeNat p s n = p ++ s ++ padStart (Nat.repr n) 3 '0')
    ∧ deriveTreeCodeNat "PLOT1" "A02" 14 = "PLOT1A02014"
    ∧ deriveTreeCodeNat "PLOT1" "A02" 7 = "PLOT1A02007" := by
  refine ⟨fun p s n hp hs _ => ?_, by decide, by decide⟩
  simp [deriveTreeCodeNat, deriveTreeCode, hp, hs, repr_ne_empty n]

theorem deriveTreeCode_concat_spec_witness :
    "PLOT1" ≠ "" ∧ "A02" ≠ "" ∧ 1 ≤ 14 ∧
    deriveTreeCodeNat "PLOT1" "A02" 14 =
      "PLOT1" ++ "A02" ++ padStart (Nat.repr 14) 3 '0' :=
  ⟨by decide, by decide, by decide,
    deriveTreeCode_concat_spec.1 "PLOT1" "A02" 14 (by decide) (by decide) (by decide)⟩

/-- C3 counterexample: `deriveTreeCode` is not injective over all valid
triples.  The distinct triples `("P1A","02",14)` and `("P1","A02",14)`
(non-empty codes, tree number ≥ 1) derive the same code `"P1A02014"`,
because the unseparated concatenation lets characters move between the plot
code and the species code. -/
theorem deriveTreeCode_collision :
    deriveTreeCodeNat "P1A" "02" 14 = deriveTreeCodeNat "P1" "A02" 14 ∧
    ("P1A", "02", (14 : Nat)) ≠ ("P1", "A02", (14 : Nat)) := by
  exact ⟨by decide, by decide⟩

/-- C3 amended: `deriveTreeCode` is deterministic (it is a function), and it
is injective over valid triples once the plot codes being compared have one
common width and the species codes have one common width — the fixed-width
condition the upstream catalogs provide.  Zero-padding keeps the tree-number
segment unambiguous for every `treeNumber ≥ 1`. -/
theorem deriveTreeCode_injective_fixed_widths
    (p1 s1 : String) (n1 : Nat) (p2 s2 : String) (n2 : Nat)
    (hp1 : p1 ≠ "") (hs1 : s1 ≠ "") (_hn1 : 1 ≤ n1) (_hn2 : 1 ≤ n2)
    (hpl : p1.length = p2.length) (hsl : s1.length = s2.length)
    (h : deriveTreeCodeNat p1 s1 n1 = deriveTreeCodeNat p2 s2 n2) :
    p1 = p2 ∧ s1 = s2 ∧ n1 = n2 := by
  have hp2 : p2 ≠ "" := by
    intro h2
    subst h2
    exact hp1 (string_eq_of_data (List.length_eq_zero.mp hpl))
  have hs2 : s2 ≠ "" := by
    intro h2
    subst h2
    exact hs1 (string_eq_of_data (List.length_eq_zero.mp hsl))
  simp only [deriveTreeCodeNat, deriveTreeCode, hp1, hs1, hp2, hs2,
    repr_ne_empty, if_false, Bool.or_self, Bool.or_false, Bool.false_or,
    decide_eq_true_eq] at h
  have hd := congrArg String.data h
  simp only [String.data_append, List.append_assoc] at hd
  have hpd : p1.data.length = p2.data.length := hpl
  obtain ⟨hpe, hrest⟩ := List.append_inj hd hpd
  have hsd : s1.data.length = s2.data.length := hsl
  obtain ⟨hse, hpad⟩ := List.append_inj hrest hsd
  refine ⟨string_eq_of_data hpe, string_eq_of_data hse, ?_⟩
  exact padStart_repr_inj n1 n2 (string_eq_of_data hpad)

theorem deriveTreeCode_injective_fixed_widths_witness :
    "P1" = "P1" ∧ "A02" = "A02" ∧ (14 : Nat) = 14 :=
  deriveTreeCode_injective_fixed_widths "P1" "A02" 14 "P1" "A02" 14
    (by decide) (by decide) (by decide) (by decide) rfl rfl rfl

theorem filterGrowth_pred_iff (st pf sf : String) (r : TreeRecord) :
    ((st == "" || jsIncludes (lowerStr r.tree_code) (lowerStr st)
        || jsIncludes (lowerStr r.species_name) (lowerStr st))
      && (pf == "" || r.plot_code == pf)
      && (sf == "" || (match r.status with
            | some s => s == sf
            | none => false))) = true ↔ SpecMatches st pf sf r := by
  cases hst : r.status <;>
    simp [SpecMatches, hst, Bool.and_eq_true, Bool.or_eq_true, beq_iff_eq] <;>
    tauto

/-- C5: `filterGrowth` keeps exactly the records matching the conjunctive
predicate (search text empty or a case-insensitive substring of the tree
code or species name; plot filter empty or equal; status filter empty or
equal), preserves the original order (the result is a sublist of the
input), and with all three filters empty returns the input unchanged. -/
theorem filterGrowth_spec :
    (∀ (records : List TreeRecord) (st pf sf : String),
        (∀ r, r ∈ filterGrowth records st pf sf ↔
            r ∈ records ∧ SpecMatches st pf sf r)
        ∧ List.Sublist (filterGrowth records st pf sf) records)
    ∧ ∀ records : List TreeRecord, filterGrowth records "" "" "" = records := by
  constructor
  · intro records st pf sf
    refine ⟨fun r => ?_, List.filter_sublist _⟩
    rw [filterGrowth, List.mem_filter]
    exact and_congr_right fun _ => filterGrowth_pred_iff st pf sf r
  · intro records
    rw [filterGrowth, List.filter_eq_self]
    intro r _
    simp

theorem filter_two_length_le {α : Type} (p q : α → Bool)
    (hpq : ∀ x, ¬(p x = true ∧ q x = true)) :
    ∀ l : List α, (l.filter p).length + (l.filter q).length ≤ l.length := by
  intro l
  induction l with
  | nil => simp
  | cons a l ih =>
    cases hp : p a <;> cases hq : q a
    · simp only [List.filter_cons, hp, hq, Bool.false_eq_true, if_false,
        List.length_cons]
      omega
    · simp only [List.filter_cons, hp, hq, Bool.false_eq_true, if_false,
        if_true, List.length_cons]
      omega
    · simp only [List.filter_cons, hp, hq, Bool.false_eq_true, if_false,
        if_true, List.length_cons]
      omega
    · exact absurd ⟨hp, hq⟩ (hpq a)

/-- C2 counterexample: with eight records, one alive and seven dead, the
independently rounded percentages are `round(12.5) = 13` and
`round(87.5) = 88`, so `alivePct + deadPct = 101 > 100` and the claimed
bound `alivePct + deadPct ≤ 100` fails. -/
theorem alive_dead_pct_sum_can_exceed_100 :
    alivePct cexRecordsC2 + deadPct cexRecordsC2 = 101 ∧
    ¬(alivePct cexRecordsC2 + deadPct cexRecordsC2 ≤ 100) := by
  have ha : aliveCount cexRecordsC2 = 1 := by decide
  have hd : deadCount cexRecordsC2 = 7 := by decide
  have hl : cexRecordsC2.length = 8 := by decide
  have h1 : alivePct cexRecordsC2 = 13 := by
    rw [alivePct, ha, hl, pctPart]
    norm_num [jsRound, Int.floor_eq_iff]
  have h2 : deadPct cexRecordsC2 = 88 := by
    rw [deadPct, hd, hl, pctPart]
    norm_num [jsRound, Int.floor_eq_iff]
  rw [h1, h2]
  norm_num

/-- C2 amended: `aliveCount + deadCount ≤ total` holds (a record has at
most one status), but because the two percentages are rounded independently
(round half up) their sum is only bounded by `101`, not `100`: each rounding
adds at most one half, so `alivePct + deadPct ≤ 101`, and `101` is attained
(see the counterexample).  For `total = 0` both percentages are `0`. -/
theorem stats_counts_and_pct_sum_bound (records : List TreeRecord) :
    aliveCount records + deadCount records ≤ records.length ∧
    alivePct records + deadPct records ≤ 101 := by
  have hcount : aliveCount records + deadCount records ≤ records.length := by
    apply filter_two_length_le
    rintro x ⟨h1, h2⟩
    rw [beq_iff_eq] at h1 h2
    rw [h1] at h2
    exact absurd (Option.some.inj h2) (by decide)
  refine ⟨hcount, ?_⟩
  by_cases ht : records.length = 0
  · simp [alivePct, deadPct, pctPart, ht]
  · have htpos : 0 < records.length := Nat.pos_of_ne_zero ht
    rw [alivePct, deadPct, pctPart, pctPart, if_neg ht, if_neg ht]
    set a := aliveCount records with ha
    set d := deadCount records with hd
    set t := records.length with htt
    have htq : (0 : ℚ) < (t : ℚ) := by exact_mod_cast htpos
    have hsum : ((a : ℚ) + (d : ℚ)) / (t : ℚ) ≤ 1 := by
      rw [div_le_one htq]
      exact_mod_cast hcount
    have key : ((jsRound ((a : ℚ) / (t : ℚ) * 100) +
        jsRound ((d : ℚ) / (t : ℚ) * 100) : ℤ) : ℚ) ≤ 101 := by
      have h1 : ((jsRound ((a : ℚ) / (t : ℚ) * 100) : ℤ) : ℚ) ≤
          (a : ℚ) / (t : ℚ) * 100 + 1 / 2 := Int.floor_le _
      have h2 : ((jsRound ((d : ℚ) / (t : ℚ) * 100) : ℤ) : ℚ) ≤
          (d : ℚ) / (t : ℚ) * 100 + 1 / 2 := Int.floor_le _
      have h3 : (a : ℚ) / (t : ℚ) * 100 + (d : ℚ) / (t : ℚ) * 100 ≤ 100 := by
        have heq : (a : ℚ) / (t : ℚ) * 100 + (d : ℚ) / (t : ℚ) * 100 =
            ((a : ℚ) + (d : ℚ)) / (t : ℚ) * 100 := by
          ring
        rw [heq]
        nlinarith [hsum]
      push_cast
      linarith
    exact_mod_cast key

theorem bump_map_fst (k : String) :
    ∀ m : List (String × Nat),
      (bump m k).map Prod.fst =
        if k ∈ m.map Prod.fst then m.map Prod.fst else m.map Prod.fst ++ [k]
  | [] => by simp [bump]
  | (k', v) :: m => by
    by_cases h : k' = k
    · subst h
      simp [bump]
    · have hne : ¬k = k' := fun hk => h hk.symm
      by_cases hm : k ∈ m.map Prod.fst <;>
        simp [bump, h, hne, hm, bump_map_fst k m]

theorem tally_fst_aux (records : List TreeRecord) :
    ∀ m : List (String × Nat),
      ((records.foldl (fun m r => bump m r.species_name) m).map Prod.fst) =
        records.foldl
          (fun acc r =>
            if r.species_name ∈ acc then acc else acc ++ [r.species_name])
          (m.map Prod.fst) := by
  induction records with
  | nil => intro m; simp
  | cons r rs ih =>
    intro m
    simp only [List.foldl_cons]
    rw [ih (bump m r.species_name), bump_map_fst]

/-- The tally's keys are exactly the species names in first-encounter
order. -/
theorem speciesTally_fst (records : List TreeRecord) :
    (speciesTally records).map Prod.fst = encounterOrder records := by
  simpa [speciesTally, encounterOrder] using tally_fst_aux records []

theorem filter_orderedInsert_count (c : Nat) (a : String × Nat) :
    ∀ l : List (String × Nat),
      (List.orderedInsert descByCount a l).filter (fun e => e.2 == c) =
        if a.2 == c then a :: l.filter (fun e => e.2 == c)
        else l.filter (fun e => e.2 == c)
  | [] => by
    simp only [List.orderedInsert, List.filter]
    cases ha : (a.2 == c) <;> simp
  | b :: l => by
    rw [List.orderedInsert]
    by_cases hr : descByCount a b
    · rw [if_pos hr]
      cases ha : (a.2 == c) <;> simp [List.filter_cons, ha]
    · rw [if_neg hr]
      have hab : a.2 < b.2 := Nat.lt_of_not_le hr
      rw [List.filter_cons, List.filter_cons]
      cases hb : (b.2 == c)
      · simp only [Bool.false_eq_true, if_false]
        exact filter_orderedInsert_count c a l
      · have ha : (a.2 == c) = false := by
          rw [beq_iff_eq] at hb
          rw [beq_eq_false_iff_ne]
          omega
        rw [filter_orderedInsert_count c a l, ha]
        simp

theorem filter_sortDescByCount (c : Nat) :
    ∀ l : List (String × Nat),
      (sortDescByCount l).filter (fun e => e.2 == c) =
        l.filter (fun e => e.2 == c)
  | [] => rfl
  | a :: l => by
    show (List.orderedInsert descByCount a
        (List.insertionSort descByCount l)).filter (fun e => e.2 == c) = _
    rw [filter_orderedInsert_count, List.filter_cons]
    have ih := filter_sortDescByCount c l
    rw [sortDescByCount] at ih
    cases ha : (a.2 == c) <;> simp [ih]

/-- C6: `speciesBreakdown` has at most 10 entries, its counts are
non-increasing (`descByCount`-sorted), entries of any fixed count keep
their order in the tally (stable sort: equal counts in first-encounter
order), and the tally's keys are the species names in first-encounter
order of the input. -/
theorem speciesBreakdown_spec (records : List TreeRecord) :
    (speciesBreakdown records).length ≤ 10 ∧
    List.Sorted descByCount (speciesBreakdown records) ∧
    (∀ c : Nat, List.Sublist
        ((speciesBreakdown records).filter (fun e => e.2 == c))
        (speciesTally records)) ∧
    (speciesTally records).map Prod.fst = encounterOrder records := by
  refine ⟨?_, ?_, ?_, speciesTally_fst records⟩
  · simp [speciesBreakdown]
  · exact (List.sorted_insertionSort descByCount (speciesTally records)).sublist
      (List.take_sublist 10 _)
  · intro c
    have h1 : List.Sublist
        ((speciesBreakdown records).filter (fun e => e.2 == c))
        ((sortDescByCount (speciesTally records)).filter (fun e => e.2 == c)) :=
      List.Sublist.filter _ (List.take_sublist 10 _)
    rw [filter_sortDescByCount] at h1
    exact h1.trans (List.filter_sublist _)

theorem find?_first {α : Type} (p : α → Bool) (g : α) (post : List α)
    (hg : p g = true) :
    ∀ pre : List α, (∀ x ∈ pre, p x = false) →
      (pre ++ g :: post).find? p = some g
  | [], _ => by simp [List.find?_cons, hg]
  | x :: pre, hpre => by
    have hx : p x = false := hpre x (List.mem_cons_self x pre)
    rw [List.cons_append, List.find?_cons, hx]
    exact find?_first p g post hg pre
      (fun y hy => hpre y (List.mem_cons_of_mem x hy))

/-- C7: a spatial record whose tree code matches no growth record resolves
to `none` — a normal absent state, not an error — and the map layer gives
its marker the neutral grey colour `#9ca3af` (neither the alive green nor
the dead red); when matching growth records exist, the first one in load
order is returned. -/
theorem resolveGrowthFor_spec (records : List TreeRecord) (c : CoordRecord) :
    ((∀ g ∈ records, g.tree_code ≠ c.tree_code) →
        resolveGrowthFor records c = none ∧ markerColor records c = "#9ca3af")
    ∧ (∀ (pre : List TreeRecord) (g : TreeRecord) (post : List TreeRecord),
        records = pre ++ g :: post → g.tree_code = c.tree_code →
        (∀ x ∈ pre, x.tree_code ≠ c.tree_code) →
        resolveGrowthFor records c = some g) := by
  constructor
  · intro h
    have hn : resolveGrowthFor records c = none := by
      rw [resolveGrowthFor, List.find?_eq_none]
      intro x hx
      simpa using h x hx
    refine ⟨hn, ?_⟩
    rw [markerColor, hn]
    simp
  · rintro pre g post rfl hg hpre
    rw [resolveGrowthFor]
    exact find?_first _ g post (by simpa using hg) pre
      (fun x hx => by simpa using hpre x hx)

theorem resolveGrowthFor_spec_witness :
    (resolveGrowthFor [⟨"PLOT1A02001", "PLOT1", "Teak", some "alive"⟩]
        ⟨"PLOT1A02999"⟩ = none ∧
      markerColor [⟨"PLOT1A02001", "PLOT1", "Teak", some "alive"⟩]
        ⟨"PLOT1A02999"⟩ = "#9ca3af")
    ∧ resolveGrowthFor [⟨"PLOT1A02001", "PLOT1", "Teak", some "alive"⟩]
        ⟨"PLOT1A02001"⟩ =
      some ⟨"PLOT1A02001", "PLOT1", "Teak", some "alive"⟩ :=
  ⟨(resolveGrowthFor_spec [⟨"PLOT1A02001", "PLOT1", "Teak", some "alive"⟩]
      ⟨"PLOT1A02999"⟩).1 (by decide),
   (resolveGrowthFor_spec [⟨"PLOT1A02001", "PLOT1", "Teak", some "alive"⟩]
      ⟨"PLOT1A02001"⟩).2 [] ⟨"PLOT1A02001", "PLOT1", "Teak", some "alive"⟩ []
      rfl rfl (by simp)⟩

/-- C8: a reload never clears or modifies a collection that was not
successfully re-fetched: if the growth fetch throws or answers
`success:false`, the growth records are unchanged; if the coordinate fetch
throws, answers `success:false`, or is skipped because the growth fetch
threw, the coordinate records are unchanged; and the growth collection
never depends on the coordinate fetch's outcome. -/
theorem fetchData_failure_isolation (s : AppState)
    (g : FetchResult TreeRecord) (c : FetchResult CoordRecord) :
    ((∀ d, g ≠ FetchResult.ok true d) → (fetchData s g c).records = s.records)
    ∧ ((g = FetchResult.err ∨ ∀ d, c ≠ FetchResult.ok true d) →
        (fetchData s g c).coordRecords = s.coordRecords)
    ∧ (∀ c' : FetchResult CoordRecord,
        (fetchData s g c).records = (fetchData s g c').records) := by
  obtain ⟨recs, coords, load, toast⟩ := s
  refine ⟨?_, ?_, ?_⟩
  · intro h
    cases g with
    | err => simp [fetchData]
    | ok gOk gData =>
      cases gOk with
      | true => exact absurd rfl (h gData)
      | false =>
        cases c with
        | err => simp [fetchData]
        | ok cOk cData => cases cOk <;> simp [fetchData]
  · intro h
    cases g with
    | err => simp [fetchData]
    | ok gOk gData =>
      rcases h with h | h
      · simp at h
      · cases c with
        | err => cases gOk <;> simp [fetchData]
        | ok cOk cData =>
          cases cOk with
          | true => exact absurd rfl (h cData)
          | false => cases gOk <;> simp [fetchData]
  · intro c'
    cases g with
    | err => simp [fetchData]
    | ok gOk gData =>
      have hrec : ∀ cc : FetchResult CoordRecord,
          (fetchData ⟨recs, coords, load, toast⟩ (FetchResult.ok gOk gData)
              cc).records = (if gOk then gData else recs) := by
        intro cc
        cases cc with
        | err => cases gOk <;> simp [fetchData]
        | ok cOk cData => cases gOk <;> cases cOk <;> simp [fetchData]
      rw [hrec c, hrec c']

theorem fetchData_failure_isolation_witness :
    (fetchData ⟨[⟨"PLOT1A02001", "PLOT1", "Teak", some "alive"⟩], [⟨"PLOT1A02001"⟩],
          false, none⟩
        (FetchResult.ok false []) FetchResult.err).records =
      [⟨"PLOT1A02001", "PLOT1", "Teak", some "alive"⟩] ∧
    (fetchData ⟨[⟨"PLOT1A02001", "PLOT1", "Teak", some "alive"⟩], [⟨"PLOT1A02001"⟩],
          false, none⟩
        (FetchResult.ok false []) FetchResult.err).coordRecords =
      [⟨"PLOT1A02001"⟩] :=
  ⟨(fetchData_failure_isolation _ (FetchResult.ok false []) FetchResult.err).1
      (by intro d; simp),
   (fetchData_failure_isolation ⟨[⟨"PLOT1A02001", "PLOT1", "Teak", some "alive"⟩],
        [⟨"PLOT1A02001"⟩], false, none⟩ (FetchResult.ok false [])
        FetchResult.err).2.1 (Or.inr (by intro d; simp))⟩

/-- C10: after a successful submission the form-clearing step resets
`plotCode`, `treeNumber`, `speciesCode`, `rowMain`, `rowSub`, `dbhCm`,
`heightM`, `status` and `note`, while the recorder, the survey date and the
three filter values are left unchanged. -/
theorem clearForm_frame (f : FormState)
    (hp : f.plotCode ≠ "") (hs : f.speciesCode ≠ "") (ht : f.treeNumber ≠ "")
    (hm : f.rowMain ≠ "") (hb : f.rowSub ≠ "") (hr : f.recorder ≠ "") :
    (handleSubmit f true).plotCode = "" ∧
    (handleSubmit f true).treeNumber = "" ∧
    (handleSubmit f true).speciesCode = "" ∧
    (handleSubmit f true).rowMain = "" ∧
    (handleSubmit f true).rowSub = "" ∧
    (handleSubmit f true).dbhCm = "" ∧
    (handleSubmit f true).heightM = "" ∧
    (handleSubmit f true).status = none ∧
    (handleSubmit f true).note = "" ∧
    (handleSubmit f true).recorder = f.recorder ∧
    (handleSubmit f true).surveyDate = f.surveyDate ∧
    (handleSubmit f true).searchTerm = f.searchTerm ∧
    (handleSubmit f true).plotFilter = f.plotFilter ∧
    (handleSubmit f true).statusFilter = f.statusFilter := by
  have hclear : handleSubmit f true = clearForm f := by
    rw [handleSubmit]
    simp [hp, hs, ht, hm, hb, hr]
  rw [hclear]
  simp [clearForm]

theorem clearForm_frame_witness :
    (handleSubmit ⟨"PLOT1", "14", "A02", "02", "03-A", "12.5", "8.4",
        some "alive", "note", "Chan", "2026-01-15", "teak", "PLOT1",
        "alive"⟩ true).plotCode = "" ∧
    (handleSubmit ⟨"PLOT1", "14", "A02", "02", "03-A", "12.5", "8.4",
        some "alive", "note", "Chan", "2026-01-15", "teak", "PLOT1",
        "alive"⟩ true).treeNumber = "" ∧
    (handleSubmit ⟨"PLOT1", "14", "A02", "02", "03-A", "12.5", "8.4",
        some "alive", "note", "Chan", "2026-01-15", "teak", "PLOT1",
        "alive"⟩ true).speciesCode = "" ∧
    (handleSubmit ⟨"PLOT1", "14", "A02", "02", "03-A", "12.5", "8.4",
        some "alive", "note", "Chan", "2026-01-15", "teak", "PLOT1",
        "alive"⟩ true).rowMain = "" ∧
    (handleSubmit ⟨"PLOT1", "14", "A02", "02", "03-A", "12.5", "8.4",
        some "alive", "note", "Chan", "2026-01-15", "teak", "PLOT1",
        "alive"⟩ true).rowSub = "" ∧
    (handleSubmit ⟨"PLOT1", "14", "A02", "02", "03-A", "12.5", "8.4",
        some "alive", "note", "Chan", "2026-01-15", "teak", "PLOT1",
        "alive"⟩ true).dbhCm = "" ∧
    (handleSubmit ⟨"PLOT1", "14", "A02", "02", "03-A", "12.5", "8.4",
        some "alive", "note", "Chan", "2026-01-15", "teak", "PLOT1",
        "alive"⟩ true).heightM = "" ∧
    (handleSubmit ⟨"PLOT1", "14", "A02", "02", "03-A", "12.5", "8.4",
        some "alive", "note", "Chan", "2026-01-15", "teak", "PLOT1",
        "alive"⟩ true).status = none ∧
    (handleSubmit ⟨"PLOT1", "14", "A02", "02", "03-A", "12.5", "8.4",
        some "alive", "note", "Chan", "2026-01-15", "teak", "PLOT1",
        "alive"⟩ true).note = "" ∧
    (handleSubmit ⟨"PLOT1", "14", "A02", "02", "03-A", "12.5", "8.4",
        some "alive", "note", "Chan", "2026-01-15", "teak", "PLOT1",
        "alive"⟩ true).recorder = "Chan" ∧
    (handleSubmit ⟨"PLOT1", "14", "A02", "02", "03-A", "12.5", "8.4",
        some "alive", "note", "Chan", "2026-01-15", "teak", "PLOT1",
        "alive"⟩ true).surveyDate = "2026-01-15" ∧
    (handleSubmit ⟨"PLOT1", "14", "A02", "02", "03-A", "12.5", "8.4",
        some "alive", "note", "Chan", "2026-01-15", "teak", "PLOT1",
        "alive"⟩ true).searchTerm = "teak" ∧
    (handleSubmit ⟨"PLOT1", "14", "A02", "02", "03-A", "12.5", "8.4",
        some "alive", "note", "Chan", "2026-01-15", "teak", "PLOT1",
        "alive"⟩ true).plotFilter = "PLOT1" ∧
    (handleSubmit ⟨"PLOT1", "14", "A02", "02", "03-A", "12.5", "8.4",
        some "alive", "note", "Chan", "2026-01-15", "teak", "PLOT1",
        "alive"⟩ true).statusFilter = "alive" :=
  clearForm_frame ⟨"PLOT1", "14", "A02", "02", "03-A", "12.5", "8.4",
      some "alive", "note", "Chan", "2026-01-15", "teak", "PLOT1", "alive"⟩
    (by decide) (by decide) (by decide) (by decide) (by decide) (by decide)

/-- C1 (code-level evaluation): the displayed coordinate-coverage
percentage at `total = 0` is `Infinity` as soon as one spatial record
exists — `(1/0)*100` is `Infinity`, which is truthy, so the `|| 0` guard
does not replace it — and is `0` only when there are also no spatial
records (`0/0` gives `NaN`, which `|| 0` replaces).  The claimed value `0`
for every spatial count at `total = 0` does not hold. -/
theorem coveragePct_infinity_on_empty_growth :
    coordinateCoveragePct [] [⟨"PLOT1A02001"⟩] = JsNum.posInf ∧
    coordinateCoveragePct [] [⟨"PLOT1A02001"⟩] ≠ JsNum.num 0 ∧
    coordinateCoveragePct [] [] = JsNum.num 0 := by
  refine ⟨by decide, by decide, ?_⟩
  show jsMathRound (jsOrZero (jsMul100 (jsDivNat 0 0))) = JsNum.num 0
  rw [jsDivNat]
  norm_num [jsMul100, jsOrZero, jsMathRound, Int.floor_eq_iff]

end MaechaemDB
